import Mathlib

/-!
# Verification of the gemstone price-prediction service

Shallow embedding of the feature-vector construction and prediction-serving
pipeline of `src/app.py` (Flask variant; the one-hot construction is shared
verbatim with `src/streamlitapp.py` lines 162-172), together with proofs of
the specified properties.

Modelling conventions:
* Python floats are modelled as rationals (`ℚ`); every numeric value the
  pipeline manipulates is a finite decimal literal, so no rounding behaviour
  is relevant to the properties proved here.
* A request payload (JSON object or form mapping) is an association list of
  string keys to string values; `Python dict.get` is first-match lookup.
* Exceptions are modelled with `Except String`, the message being the
  exception text that `str(e)` would produce.
* The external model (`MODEL.predict(input_df)[0]`) is an opaque function
  from feature vectors to `Except String ℚ`: it may raise.
-/

namespace Gemstone

/-- A raw request payload: untyped mapping of string keys to raw string
values (`src/app.py` line 109: `request.get_json(silent=True) or request.form`). -/
abbrev RawInput := List (String × String)

/-- Python `dict.get(k)` on a payload: first binding of the key, if any. -/
def rawGet (d : RawInput) (k : String) : Option String :=
  match d with
  | [] => none
  | (k', v) :: t => if k' = k then some v else rawGet t k

/-- Digit run to a natural number, most significant first. -/
def digitsToNat (l : List Char) : Nat :=
  l.foldl (fun acc c => 10 * acc + (c.toNat - ('0').toNat)) 0

/-- Body of a Python float literal after the optional sign: digits with an
optional single decimal point (`"12"`, `"12."`, `".5"`, `"1.25"`). -/
def parseBody (l : List Char) : Option ℚ :=
  let intPart := l.takeWhile Char.isDigit
  let rest := l.dropWhile Char.isDigit
  match rest with
  | [] => if intPart.isEmpty then none else some ((digitsToNat intPart : ℚ))
  | '.' :: frac =>
      if frac.all Char.isDigit && !(intPart.isEmpty && frac.isEmpty) then
        some ((digitsToNat intPart : ℚ) + (digitsToNat frac : ℚ) / (10 ^ frac.length))
      else none
  | _ => none

/-- Surrounding whitespace removal on the character list, as Python `float`
strips its argument. -/
def stripEnds (l : List Char) : List Char :=
  ((l.dropWhile Char.isWhitespace).reverse.dropWhile Char.isWhitespace).reverse

/-- Python `float(s)` on a string: strips surrounding whitespace, optional
sign, then a decimal literal; `none` models the `ValueError` raised on any
other input (exponent and inf/nan forms are irrelevant to the payloads
specified and are treated as parse failures). -/
def parseFloat (s : String) : Option ℚ :=
  match stripEnds s.data with
  | [] => none
  | c :: rest =>
      if c = '-' then (parseBody rest).map (fun q => -q)
      else if c = '+' then parseBody rest
      else parseBody (c :: rest)

/-- Numeric extraction `float(data.get(k, 0.0))` (`src/app.py` lines 115-120): the absent-key
default `0.0` passes `float` unchanged; a present raw string is parsed, and
a parse failure is the ValueError that float raises. -/
def getFloat (d : RawInput) (k : String) : Except String ℚ :=
  match rawGet d k with
  | none => .ok 0
  | some s =>
      match parseFloat s with
      | some q => .ok q
      | none => .error ("could not convert string to float: " ++ s)

/-- Categorical extraction `data.get(k, default)` (`src/app.py`
lines 123-125): raw value verbatim if present, else the fixed default. -/
def getStr (d : RawInput) (k dflt : String) : String :=
  (rawGet d k).getD dflt

/-- The typed value of a request after extraction (`src/app.py`
lines 115-125). -/
structure NormalizedInput where
  carat : ℚ
  depth : ℚ
  table : ℚ
  x : ℚ
  y : ℚ
  z : ℚ
  cut : String
  color : String
  clarity : String
deriving DecidableEq, Repr

/-- The Input Normalizer: the emptiness guard and field extraction of
`src/app.py` lines 111-125.  `error` is the exception text the handler
would catch (ValueError for an empty container, the float ValueError
for an unparseable numeric field). -/
def normalize (data : RawInput) : Except String NormalizedInput :=
  if data.isEmpty then .error "No input data provided in the request body."
  else do
    let carat ← getFloat data "carat"
    let depth ← getFloat data "depth"
    let table ← getFloat data "table"
    let x ← getFloat data "x"
    let y ← getFloat data "y"
    let z ← getFloat data "z"
    .ok { carat := carat, depth := depth, table := table, x := x, y := y, z := z,
          cut := getStr data "cut" "Ideal",
          color := getStr data "color" "D",
          clarity := getStr data "clarity" "IF" }

/-- Pointwise update of a finite map modelled as a function: Python dict
assignment `d[k] = v` (later assignments win on lookup). -/
def upd (f : String → ℚ) (k : String) (v : ℚ) : String → ℚ :=
  fun s => if s = k then v else f s

/-- The populated `input_dict` of `src/app.py` lines 128-141 as a total
lookup function: the comprehension `{name: 0 for name in FEATURE_NAMES}`
makes every schema name default to `0`; then the six numeric values and the
three composed one-hot keys are assigned in source order.  Assigning a
composed key absent from `FEATURE_NAMES` just adds a stray dict entry,
exactly as in Python; it is dropped below when the frame is built over the
schema columns. -/
def buildDict (n : NormalizedInput) : String → ℚ :=
  upd (upd (upd (upd (upd (upd (upd (upd (upd (fun _ => 0)
    "carat" n.carat) "depth" n.depth) "table" n.table)
    "x" n.x) "y" n.y) "z" n.z)
    ("cut_" ++ n.cut) 1) ("color_" ++ n.color) 1) ("clarity_" ++ n.clarity) 1

/-- The Vector Builder: `pd.DataFrame([input_dict], columns=FEATURE_NAMES)`
(`src/app.py` line 143) reads the dict back in schema order, one value per
schema column; stray dict keys outside `FEATURE_NAMES` are dropped. -/
def build_vector (n : NormalizedInput) (names : List String) : List ℚ :=
  names.map (buildDict n)

/-- The opaque external model: `MODEL.predict(input_df)[0]`, which may raise
(the message is what `str(e)` yields). -/
abbrev Model := List ℚ → Except String ℚ

/-- Artifact loading `load_model_and_features` (`src/app.py` lines 37-48): `joblib.load`
raises `FileNotFoundError` when either backing file is absent, and the
handler then returns `(None, None)`; otherwise both artifacts load. -/
def load_model_and_features (modelFile : Option Model)
    (featureFile : Option (List String)) : Option Model × Option (List String) :=
  match modelFile, featureFile with
  | some m, some f => (some m, some f)
  | some _, none => (none, none)
  | none, some _ => (none, none)
  | none, none => (none, none)

/-- An incoming `/predict` request: the parsed JSON object when the body
carries one (`request.get_json(silent=True)`, `none` on absence or parse
failure) and the form mapping (`request.form`, empty when no form data). -/
structure Request where
  json : Option RawInput
  form : RawInput

/-- Data-source selection `data = request.get_json(silent=True) or
request.form` (`src/app.py` line 109): Python `or` falls through to the form whenever the JSON value is
falsy, i.e. absent or the empty object. -/
def selectData (r : Request) : RawInput :=
  match r.json with
  | some j => if j.isEmpty then r.form else j
  | none => r.form

/-- The response of the `/predict` handler: `ok` is the 200 JSON carrying
the raw predicted price (plus its currency formatting, not modelled), `err`
is the `{'error': ...}` JSON with its HTTP status. -/
inductive Response where
  | ok (raw_price : ℚ)
  | err (error : String) (status : Nat)
deriving DecidableEq, Repr

/-- The body of the `try` block of `src/app.py` lines 106-152 after the data
source is fixed: normalize, build the vector, invoke the model; the
surrounding `except Exception` turns any raised message into the 400
response of line 156. -/
def predictData (model : Model) (names : List String) (data : RawInput) : Response :=
  match (do
      let n ← normalize data
      model (build_vector n names) : Except String ℚ) with
  | .ok p => .ok p
  | .error e => .err ("An error occurred during prediction: " ++ e) 400

/-- The `/predict` handler (`src/app.py` lines 94-156): the `MODEL is None`
gate of line 100 answers 500 before any input processing; with the model
present the handler runs the pipeline on the selected data source.  (When
`FEATURE_NAMES` alone were `None` — unreachable through
`load_model_and_features` — iterating it would raise `TypeError`, caught as
a 400 like any other exception.) -/
def predict (MODEL : Option Model) (FEATURE_NAMES : Option (List String))
    (r : Request) : Response :=
  match MODEL with
  | none => .err "Model not loaded on the server." 500
  | some model =>
      match FEATURE_NAMES with
      | none =>
          .err "An error occurred during prediction: argument of type NoneType is not iterable" 400
      | some names => predictData model names (selectData r)

/-- The legal cut choices `CUT_OPTIONS` (`src/streamlitapp.py` line 110;
`src/app.py` line 57). -/
def CUT_OPTIONS : List String := ["Ideal", "Premium", "Very Good", "Good", "Fair"]

/-- The legal color codes: the keys of `color_options`
(`src/streamlitapp.py` lines 112-120). -/
def COLOR_KEYS : List String := ["D", "E", "F", "G", "H", "I", "J"]

/-- The legal clarity codes: the keys of `clarity_options`
(`src/streamlitapp.py` lines 122-131). -/
def CLARITY_KEYS : List String := ["IF", "VVS1", "VVS2", "VS1", "VS2", "SI1", "SI2", "I1"]

/-- The six numeric feature names (`src/app.py` lines 131-136). -/
def numericNames : List String := ["carat", "depth", "table", "x", "y", "z"]

/-- The nine payload keys the handler reads (`src/app.py` lines 115-125). -/
def payloadKeys : List String :=
  ["carat", "depth", "table", "x", "y", "z", "cut", "color", "clarity"]

/-! ## String discrimination helpers

The one-hot column names are composed by string interpolation, so the
proofs need that the three composed families (`cut_*`, `color_*`,
`clarity_*`) never collide with each other or with the six numeric
column names.  Each inequality is read off a character position inside
the literal prefixes. -/

lemma ne_of_nthChar (i : Nat) (s t : String)
    (h : s.data.getD i ' ' ≠ t.data.getD i ' ') : s ≠ t :=
  fun he => h (by rw [he])

lemma append_cancel (p a b : String) (h : p ++ a = p ++ b) : a = b := by
  have h2 := congrArg String.data h
  rw [String.data_append, String.data_append] at h2
  exact String.ext (List.append_cancel_left h2)

lemma cut_ne_color (a b : String) : "cut_" ++ a ≠ "color_" ++ b :=
  ne_of_nthChar 1 _ _ (show ('u' : Char) ≠ 'o' by decide)

lemma cut_ne_clarity (a b : String) : "cut_" ++ a ≠ "clarity_" ++ b :=
  ne_of_nthChar 1 _ _ (show ('u' : Char) ≠ 'l' by decide)

lemma color_ne_clarity (a b : String) : "color_" ++ a ≠ "clarity_" ++ b :=
  ne_of_nthChar 2 _ _ (show ('l' : Char) ≠ 'a' by decide)

lemma cutComp_ne_numeric (a t : String) (ht : t ∈ numericNames) : "cut_" ++ a ≠ t := by
  fin_cases ht
  · exact ne_of_nthChar 1 _ _ (show ('u' : Char) ≠ 'a' by decide)
  · exact ne_of_nthChar 0 _ _ (show ('c' : Char) ≠ 'd' by decide)
  · exact ne_of_nthChar 0 _ _ (show ('c' : Char) ≠ 't' by decide)
  · exact ne_of_nthChar 0 _ _ (show ('c' : Char) ≠ 'x' by decide)
  · exact ne_of_nthChar 0 _ _ (show ('c' : Char) ≠ 'y' by decide)
  · exact ne_of_nthChar 0 _ _ (show ('c' : Char) ≠ 'z' by decide)

lemma colorComp_ne_numeric (a t : String) (ht : t ∈ numericNames) : "color_" ++ a ≠ t := by
  fin_cases ht
  · exact ne_of_nthChar 1 _ _ (show ('o' : Char) ≠ 'a' by decide)
  · exact ne_of_nthChar 0 _ _ (show ('c' : Char) ≠ 'd' by decide)
  · exact ne_of_nthChar 0 _ _ (show ('c' : Char) ≠ 't' by decide)
  · exact ne_of_nthChar 0 _ _ (show ('c' : Char) ≠ 'x' by decide)
  · exact ne_of_nthChar 0 _ _ (show ('c' : Char) ≠ 'y' by decide)
  · exact ne_of_nthChar 0 _ _ (show ('c' : Char) ≠ 'z' by decide)

lemma clarityComp_ne_numeric (a t : String) (ht : t ∈ numericNames) : "clarity_" ++ a ≠ t := by
  fin_cases ht
  · exact ne_of_nthChar 1 _ _ (show ('l' : Char) ≠ 'a' by decide)
  · exact ne_of_nthChar 0 _ _ (show ('c' : Char) ≠ 'd' by decide)
  · exact ne_of_nthChar 0 _ _ (show ('c' : Char) ≠ 't' by decide)
  · exact ne_of_nthChar 0 _ _ (show ('c' : Char) ≠ 'x' by decide)
  · exact ne_of_nthChar 0 _ _ (show ('c' : Char) ≠ 'y' by decide)
  · exact ne_of_nthChar 0 _ _ (show ('c' : Char) ≠ 'z' by decide)

/-! ## Values of the populated dict -/

lemma buildDict_clarityComp (n : NormalizedInput) :
    buildDict n ("clarity_" ++ n.clarity) = 1 := by
  simp only [buildDict, upd]
  rw [if_pos trivial]

lemma buildDict_colorComp (n : NormalizedInput) :
    buildDict n ("color_" ++ n.color) = 1 := by
  simp only [buildDict, upd]
  rw [if_neg (color_ne_clarity _ _), if_pos trivial]

lemma buildDict_cutComp (n : NormalizedInput) :
    buildDict n ("cut_" ++ n.cut) = 1 := by
  simp only [buildDict, upd]
  rw [if_neg (cut_ne_clarity _ _), if_neg (cut_ne_color _ _), if_pos trivial]

lemma buildDict_carat (n : NormalizedInput) : buildDict n "carat" = n.carat := by
  simp only [buildDict, upd]
  rw [if_neg (Ne.symm (clarityComp_ne_numeric _ _ (by decide))),
      if_neg (Ne.symm (colorComp_ne_numeric _ _ (by decide))),
      if_neg (Ne.symm (cutComp_ne_numeric _ _ (by decide))),
      if_neg (show "carat" ≠ "z" by decide), if_neg (show "carat" ≠ "y" by decide),
      if_neg (show "carat" ≠ "x" by decide), if_neg (show "carat" ≠ "table" by decide),
      if_neg (show "carat" ≠ "depth" by decide), if_pos trivial]

lemma buildDict_depth (n : NormalizedInput) : buildDict n "depth" = n.depth := by
  simp only [buildDict, upd]
  rw [if_neg (Ne.symm (clarityComp_ne_numeric _ _ (by decide))),
      if_neg (Ne.symm (colorComp_ne_numeric _ _ (by decide))),
      if_neg (Ne.symm (cutComp_ne_numeric _ _ (by decide))),
      if_neg (show "depth" ≠ "z" by decide), if_neg (show "depth" ≠ "y" by decide),
      if_neg (show "depth" ≠ "x" by decide), if_neg (show "depth" ≠ "table" by decide),
      if_pos trivial]

lemma buildDict_table (n : NormalizedInput) : buildDict n "table" = n.table := by
  simp only [buildDict, upd]
  rw [if_neg (Ne.symm (clarityComp_ne_numeric _ _ (by decide))),
      if_neg (Ne.symm (colorComp_ne_numeric _ _ (by decide))),
      if_neg (Ne.symm (cutComp_ne_numeric _ _ (by decide))),
      if_neg (show "table" ≠ "z" by decide), if_neg (show "table" ≠ "y" by decide),
      if_neg (show "table" ≠ "x" by decide), if_pos trivial]

lemma buildDict_x (n : NormalizedInput) : buildDict n "x" = n.x := by
  simp only [buildDict, upd]
  rw [if_neg (Ne.symm (clarityComp_ne_numeric _ _ (by decide))),
      if_neg (Ne.symm (colorComp_ne_numeric _ _ (by decide))),
      if_neg (Ne.symm (cutComp_ne_numeric _ _ (by decide))),
      if_neg (show "x" ≠ "z" by decide), if_neg (show "x" ≠ "y" by decide), if_pos trivial]

lemma buildDict_y (n : NormalizedInput) : buildDict n "y" = n.y := by
  simp only [buildDict, upd]
  rw [if_neg (Ne.symm (clarityComp_ne_numeric _ _ (by decide))),
      if_neg (Ne.symm (colorComp_ne_numeric _ _ (by decide))),
      if_neg (Ne.symm (cutComp_ne_numeric _ _ (by decide))),
      if_neg (show "y" ≠ "z" by decide), if_pos trivial]

lemma buildDict_z (n : NormalizedInput) : buildDict n "z" = n.z := by
  simp only [buildDict, upd]
  rw [if_neg (Ne.symm (clarityComp_ne_numeric _ _ (by decide))),
      if_neg (Ne.symm (colorComp_ne_numeric _ _ (by decide))),
      if_neg (Ne.symm (cutComp_ne_numeric _ _ (by decide))), if_pos trivial]

lemma buildDict_other (n : NormalizedInput) (a : String) (h1 : a ∉ numericNames)
    (h2 : a ≠ "cut_" ++ n.cut) (h3 : a ≠ "color_" ++ n.color)
    (h4 : a ≠ "clarity_" ++ n.clarity) : buildDict n a = 0 := by
  simp only [buildDict, upd]
  rw [if_neg h4, if_neg h3, if_neg h2,
      if_neg (show a ≠ "z" from fun he => h1 (by rw [he]; decide)),
      if_neg (show a ≠ "y" from fun he => h1 (by rw [he]; decide)),
      if_neg (show a ≠ "x" from fun he => h1 (by rw [he]; decide)),
      if_neg (show a ≠ "table" from fun he => h1 (by rw [he]; decide)),
      if_neg (show a ≠ "depth" from fun he => h1 (by rw [he]; decide)),
      if_neg (show a ≠ "carat" from fun he => h1 (by rw [he]; decide))]

lemma length_build_vector (n : NormalizedInput) (names : List String) :
    (build_vector n names).length = names.length :=
  List.length_map names (buildDict n)

lemma build_vector_getD (n : NormalizedInput) (names : List String)
    (i : Fin names.length) :
    (build_vector n names).getD i.val 0 = buildDict n (names.get i) := by
  simp [build_vector, List.getD_eq_getElem?_getD, List.getElem?_eq_getElem i.isLt]

/-! ## Behaviour of the Normalizer -/

lemma normalize_ok (data : RawInput) (hne : data.isEmpty = false)
    (c d t x y z : ℚ)
    (h1 : getFloat data "carat" = .ok c) (h2 : getFloat data "depth" = .ok d)
    (h3 : getFloat data "table" = .ok t) (h4 : getFloat data "x" = .ok x)
    (h5 : getFloat data "y" = .ok y) (h6 : getFloat data "z" = .ok z) :
    normalize data = Except.ok ⟨c, d, t, x, y, z, getStr data "cut" "Ideal",
      getStr data "color" "D", getStr data "clarity" "IF"⟩ := by
  simp [normalize, hne, h1, h2, h3, h4, h5, h6, Bind.bind, Except.bind]

lemma getFloat_error_iff (d : RawInput) (k : String) :
    (∃ e, getFloat d k = .error e) ↔ ∃ s, rawGet d k = some s ∧ parseFloat s = none := by
  unfold getFloat
  rcases rawGet d k with _ | s
  · simp
  · rcases hp : parseFloat s with _ | q <;> simp [hp]

lemma getFloat_ok_total (d : RawInput) (k : String)
    (h : ((rawGet d k).all fun s => (parseFloat s).isSome) = true) :
    ∃ q, getFloat d k = .ok q ∧ (rawGet d k = none → q = 0) := by
  unfold getFloat
  rcases hg : rawGet d k with _ | s
  · exact ⟨0, rfl, fun _ => rfl⟩
  · rw [hg] at h
    simp [Option.all] at h
    rcases hp : parseFloat s with _ | q
    · rw [hp] at h; simp at h
    · exact ⟨q, by simp [hp], by simp⟩

lemma countP_three_eq_counts (l : List String) (c1 c2 c3 : String)
    (d12 : c1 ≠ c2) (d13 : c1 ≠ c3) (d23 : c2 ≠ c3) :
    l.countP (fun a => decide (a = c1) || decide (a = c2) || decide (a = c3))
      = l.count c1 + l.count c2 + l.count c3 := by
  induction l with
  | nil => rfl
  | cons hd tl ih =>
      rw [List.countP_cons, List.count_cons, List.count_cons, List.count_cons, ih]
      by_cases e1 : hd = c1
      · subst e1; simp [d12, d13, Ne.symm]
        omega
      · by_cases e2 : hd = c2
        · subst e2; simp [e1, d23]
          omega
        · by_cases e3 : hd = c3
          · subst e3; simp [e1, e2]
            omega
          · simp [e1, e2, e3]

lemma getFloat_ok_no_bad (d : RawInput) (k : String) (q : ℚ) (h : getFloat d k = Except.ok q) :
    ¬ ∃ s, rawGet d k = some s ∧ parseFloat s = none := by
  rintro ⟨s, hs, hp⟩
  simp [getFloat, hs, hp] at h

lemma normalize_error_iff (data : RawInput) :
    (∃ e, normalize data = Except.error e) ↔
      data = [] ∨ ∃ k ∈ numericNames, ∃ s, rawGet data k = some s ∧ parseFloat s = none := by
  by_cases hem : data.isEmpty
  · have hdn : data = [] := List.isEmpty_iff.mp hem
    subst hdn
    exact iff_of_true ⟨_, rfl⟩ (Or.inl rfl)
  · have hne : data.isEmpty = false := by simpa using hem
    have hlist : data ≠ [] := by simpa [List.isEmpty_iff] using hem
    rcases h1 : getFloat data "carat" with e1 | q1
    · exact iff_of_true ⟨e1, by simp [normalize, hne, h1, Bind.bind, Except.bind]⟩
        (Or.inr ⟨"carat", by decide, (getFloat_error_iff _ _).mp ⟨e1, h1⟩⟩)
    · rcases h2 : getFloat data "depth" with e2 | q2
      · exact iff_of_true ⟨e2, by simp [normalize, hne, h1, h2, Bind.bind, Except.bind]⟩
          (Or.inr ⟨"depth", by decide, (getFloat_error_iff _ _).mp ⟨e2, h2⟩⟩)
      · rcases h3 : getFloat data "table" with e3 | q3
        · exact iff_of_true ⟨e3, by simp [normalize, hne, h1, h2, h3, Bind.bind, Except.bind]⟩
            (Or.inr ⟨"table", by decide, (getFloat_error_iff _ _).mp ⟨e3, h3⟩⟩)
        · rcases h4 : getFloat data "x" with e4 | q4
          · exact iff_of_true ⟨e4, by simp [normalize, hne, h1, h2, h3, h4, Bind.bind, Except.bind]⟩
              (Or.inr ⟨"x", by decide, (getFloat_error_iff _ _).mp ⟨e4, h4⟩⟩)
          · rcases h5 : getFloat data "y" with e5 | q5
            · exact iff_of_true ⟨e5, by simp [normalize, hne, h1, h2, h3, h4, h5, Bind.bind, Except.bind]⟩
                (Or.inr ⟨"y", by decide, (getFloat_error_iff _ _).mp ⟨e5, h5⟩⟩)
            · rcases h6 : getFloat data "z" with e6 | q6
              · exact iff_of_true ⟨e6, by simp [normalize, hne, h1, h2, h3, h4, h5, h6, Bind.bind, Except.bind]⟩
                  (Or.inr ⟨"z", by decide, (getFloat_error_iff _ _).mp ⟨e6, h6⟩⟩)
              · apply iff_of_false
                · simp [normalize, hne, h1, h2, h3, h4, h5, h6, Bind.bind, Except.bind]
                · rintro (h | ⟨k, hk, s, hs, hp⟩)
                  · exact hlist h
                  · fin_cases hk
                    · exact getFloat_ok_no_bad data "carat" q1 h1 ⟨s, hs, hp⟩
                    · exact getFloat_ok_no_bad data "depth" q2 h2 ⟨s, hs, hp⟩
                    · exact getFloat_ok_no_bad data "table" q3 h3 ⟨s, hs, hp⟩
                    · exact getFloat_ok_no_bad data "x" q4 h4 ⟨s, hs, hp⟩
                    · exact getFloat_ok_no_bad data "y" q5 h5 ⟨s, hs, hp⟩
                    · exact getFloat_ok_no_bad data "z" q6 h6 ⟨s, hs, hp⟩

/-! ## Concrete fixtures for witnesses and counterexamples -/

/-- A stub model that always succeeds with price 0. -/
def okModel : Model := fun _ => Except.ok 0

/-- A stub model that always raises with message `boom`. -/
def failModel : Model := fun _ => Except.error "boom"

/-- A small concrete schema in the layout the source expects: the six
numeric columns followed by one-hot columns. -/
def exSchema : List String :=
  ["carat", "depth", "table", "x", "y", "z", "cut_Ideal", "color_D", "clarity_IF"]

/-- A concrete schema with two cut columns, for the unknown-category case. -/
def exSchemaU : List String :=
  ["carat", "depth", "table", "x", "y", "z", "cut_Ideal", "cut_Premium", "color_D",
   "clarity_IF"]

/-- A normalized input whose cut is not a legal category. -/
def nUnknown : NormalizedInput := ⟨1, 61.5, 55, 5, 5, 3, "NotARealCut", "D", "IF"⟩

/-- A normalized input drawn from the legal categorical option sets. -/
def nIdeal : NormalizedInput := ⟨2, 61.5, 55, 5, 5, 3, "Ideal", "D", "IF"⟩

/-- Two payloads agreeing on the nine known keys but differing in junk keys. -/
def d1ex : RawInput := [("carat", "1"), ("junk", "A")]

/-- See `d1ex`. -/
def d2ex : RawInput := [("junk2", "B"), ("carat", "1")]

/-! ## The claims -/

/-- C8: vector building is deterministic — for every normalized input and
fixed schema, two invocations of `build_vector` yield identical vectors; it
is a pure function of its inputs with no hidden state. -/
theorem claim_C8 (n : NormalizedInput) (names : List String) :
    build_vector n names = build_vector n names := rfl

/-- C6: if the schema or the model failed to load at process start,
`load_model_and_features` leaves both globals `None`, and every predict
request — whatever its payload — answers the 500 `ServiceUnavailable`
response without running the Normalizer or Vector Builder. -/
theorem claim_C6 (modelFile : Option Model) (featureFile : Option (List String))
    (h : modelFile = none ∨ featureFile = none) (r : Request) :
    predict (load_model_and_features modelFile featureFile).1
        (load_model_and_features modelFile featureFile).2 r
      = Response.err "Model not loaded on the server." 500 := by
  rcases h with h | h
  · subst h; cases featureFile <;> rfl
  · subst h; cases modelFile <;> rfl

/-- Witness for C6: a missing model artifact with an intact schema yields
the 500 response on a concrete request. -/
theorem claim_C6_witness :
    ((none : Option Model) = none ∨ (some exSchema : Option (List String)) = none)
    ∧ predict (load_model_and_features none (some exSchema)).1
        (load_model_and_features none (some exSchema)).2
        ⟨some [("carat", "1")], []⟩
      = Response.err "Model not loaded on the server." 500 :=
  ⟨Or.inl rfl, claim_C6 none (some exSchema) (Or.inl rfl) ⟨some [("carat", "1")], []⟩⟩

/-- C7: every exception the external model raises during invocation is
caught and surfaced as a 400 response whose error text extends the original
exception message; nothing propagates raw. -/
theorem claim_C7 (model : Model) (names : List String) (r : Request)
    (n : NormalizedInput) (msg : String)
    (hn : normalize (selectData r) = Except.ok n)
    (hm : model (build_vector n names) = Except.error msg) :
    predict (some model) (some names) r
      = Response.err ("An error occurred during prediction: " ++ msg) 400 := by
  simp [predict, predictData, hn, hm, Bind.bind, Except.bind]

/-- Witness for C7: a model that raises `boom` on a well-formed request
turns into the 400 response carrying `boom`. -/
theorem claim_C7_witness :
    (normalize (selectData ⟨some [("cut", "Fair")], []⟩)
        = Except.ok ⟨0, 0, 0, 0, 0, 0, "Fair", "D", "IF"⟩
      ∧ failModel (build_vector ⟨0, 0, 0, 0, 0, 0, "Fair", "D", "IF"⟩ exSchema)
        = Except.error "boom")
    ∧ predict (some failModel) (some exSchema) ⟨some [("cut", "Fair")], []⟩
      = Response.err "An error occurred during prediction: boom" 400 :=
  ⟨⟨rfl, rfl⟩, claim_C7 failModel exSchema ⟨some [("cut", "Fair")], []⟩
    ⟨0, 0, 0, 0, 0, 0, "Fair", "D", "IF"⟩ "boom" rfl rfl⟩

/-- C10: with a JSON body present, the body is the raw input unless it is
the empty (falsy) object, in which case the form is used; the request is
treated as carrying no input — and rejected with the no-input 400 — exactly
when both representations are empty or absent. -/
theorem claim_C10 (j f : RawInput) (model : Model) (names : List String) :
    selectData ⟨some j, f⟩ = (if j = [] then f else j)
    ∧ selectData ⟨none, f⟩ = f
    ∧ (selectData ⟨some j, f⟩ = [] ↔ j = [] ∧ f = [])
    ∧ predict (some model) (some names) ⟨some j, f⟩
      = (if j = [] ∧ f = [] then
          Response.err
            "An error occurred during prediction: No input data provided in the request body." 400
        else predictData model names (selectData ⟨some j, f⟩)) := by
  refine ⟨?_, rfl, ?_, ?_⟩
  · cases j <;> simp [selectData]
  · cases j <;> cases f <;> simp [selectData]
  · by_cases hj : j = []
    · subst hj
      by_cases hf : f = []
      · subst hf; rfl
      · rw [if_neg (by simp [hf])]; rfl
    · rw [if_neg (by simp [hj])]; rfl

/-- Counterexample to C1 as stated: a payload whose `carat` is the
unparseable string `abc` does not get a silent `0.0` — `float` raises and
the request answers a 400 error response instead of a prediction, even
though the model itself would have succeeded. -/
theorem claim_C1_counterexample :
    predict (some okModel) (some exSchema) ⟨some [("carat", "abc")], []⟩
      = Response.err
          "An error occurred during prediction: could not convert string to float: abc"
          400 := rfl

/-- C1 as amended: in a non-empty payload, each of the six numeric fields
that is absent is silently replaced by `0.0`, and — as long as every
numeric field that is present parses — the request still produces a
prediction whenever the model succeeds.  (A present but unparseable numeric
field instead fails the whole request, per the counterexample.) -/
theorem claim_C1_amended (data : RawInput) (hne : data ≠ [])
    (hparse : ∀ k ∈ numericNames,
      ((rawGet data k).all fun s => (parseFloat s).isSome) = true) :
    ∃ n : NormalizedInput, normalize data = Except.ok n
      ∧ (rawGet data "carat" = none → n.carat = 0)
      ∧ (rawGet data "depth" = none → n.depth = 0)
      ∧ (rawGet data "table" = none → n.table = 0)
      ∧ (rawGet data "x" = none → n.x = 0)
      ∧ (rawGet data "y" = none → n.y = 0)
      ∧ (rawGet data "z" = none → n.z = 0)
      ∧ ∀ model : Model, (∀ v, ∃ q, model v = Except.ok q) →
          ∀ names : List String, ∃ p,
            predict (some model) (some names) ⟨some data, []⟩ = Response.ok p := by
  have he : data.isEmpty = false := by simpa [List.isEmpty_iff] using hne
  obtain ⟨c, hc, hc0⟩ := getFloat_ok_total data "carat" (hparse "carat" (by decide))
  obtain ⟨d, hd, hd0⟩ := getFloat_ok_total data "depth" (hparse "depth" (by decide))
  obtain ⟨t, ht, ht0⟩ := getFloat_ok_total data "table" (hparse "table" (by decide))
  obtain ⟨x, hx, hx0⟩ := getFloat_ok_total data "x" (hparse "x" (by decide))
  obtain ⟨y, hy, hy0⟩ := getFloat_ok_total data "y" (hparse "y" (by decide))
  obtain ⟨z, hz, hz0⟩ := getFloat_ok_total data "z" (hparse "z" (by decide))
  have hnorm := normalize_ok data he c d t x y z hc hd ht hx hy hz
  refine ⟨_, hnorm, hc0, hd0, ht0, hx0, hy0, hz0, ?_⟩
  intro model hmo names
  obtain ⟨q, hq⟩ := hmo (build_vector
    ⟨c, d, t, x, y, z, getStr data "cut" "Ideal", getStr data "color" "D",
      getStr data "clarity" "IF"⟩ names)
  have hsel : selectData ⟨some data, []⟩ = data := by
    cases data with
    | nil => exact absurd rfl hne
    | cons a l => rfl
  exact ⟨q, by simp [predict, predictData, hsel, hnorm, hq, Bind.bind, Except.bind]⟩

/-- Witness for C1 (amended): a payload carrying only a cut normalizes with
`carat = 0`. -/
theorem claim_C1_witness :
    ([("cut", "Premium")] : RawInput) ≠ []
    ∧ ∃ n, normalize [("cut", "Premium")] = Except.ok n ∧ n.carat = 0 := by
  refine ⟨by decide, ?_⟩
  obtain ⟨n, hn, hc, -⟩ := claim_C1_amended [("cut", "Premium")] (by decide) (by decide)
  exact ⟨n, hn, hc rfl⟩

/-- Counterexample to C2 as stated: the empty-but-present payload — all
nine optional fields absent because no field at all is present — does not
normalize to the defaults; it fails with the no-input error. -/
theorem claim_C2_counterexample :
    normalize [] = Except.error "No input data provided in the request body." := rfl

/-- C2 as amended: a payload that contains at least one key but none of the
nine known fields normalizes, without failing, to carat=0, depth=0,
table=0, x=0, y=0, z=0, cut=Ideal, color=D, clarity=IF. -/
theorem claim_C2_amended (data : RawInput) (hne : data ≠ [])
    (habs : ∀ k ∈ payloadKeys, rawGet data k = none) :
    normalize data = Except.ok ⟨0, 0, 0, 0, 0, 0, "Ideal", "D", "IF"⟩ := by
  have he : data.isEmpty = false := by simpa [List.isEmpty_iff] using hne
  have hsub : ∀ k ∈ numericNames, k ∈ payloadKeys := by decide
  have hgf : ∀ k ∈ numericNames, getFloat data k = Except.ok 0 := by
    intro k hk
    unfold getFloat
    rw [habs k (hsub k hk)]
  have hs : ∀ k dflt, k ∈ payloadKeys → getStr data k dflt = dflt := by
    intro k dflt hk
    unfold getStr
    rw [habs k hk]
    rfl
  rw [normalize_ok data he 0 0 0 0 0 0 (hgf "carat" (by decide)) (hgf "depth" (by decide))
    (hgf "table" (by decide)) (hgf "x" (by decide)) (hgf "y" (by decide))
    (hgf "z" (by decide))]
  rw [hs "cut" "Ideal" (by decide), hs "color" "D" (by decide),
    hs "clarity" "IF" (by decide)]

/-- Witness for C2 (amended): a payload carrying only an unknown key
normalizes to the defaults. -/
theorem claim_C2_witness :
    (([("foo", "bar")] : RawInput) ≠ []
      ∧ ∀ k ∈ payloadKeys, rawGet [("foo", "bar")] k = none)
    ∧ normalize [("foo", "bar")] = Except.ok ⟨0, 0, 0, 0, 0, 0, "Ideal", "D", "IF"⟩ :=
  ⟨⟨by decide, by decide⟩, claim_C2_amended [("foo", "bar")] (by decide) (by decide)⟩

/-- Counterexample to C5 as stated: an empty payload is not the only input
condition under which normalization fails — this non-empty payload with an
unparseable `carat` also makes normalization raise. -/
theorem claim_C5_counterexample :
    ([("carat", "abc")] : RawInput) ≠ []
    ∧ normalize [("carat", "abc")]
      = Except.error "could not convert string to float: abc" :=
  ⟨by decide, rfl⟩

/-- C5 as amended: a wholly absent/empty payload makes normalization raise
the no-input error, surfaced as the BadRequest-class 400 response with the
triggering description; and normalization fails exactly when the payload is
empty or some numeric field is present but fails to parse as a float —
missing optional fields alone never cause it to raise. -/
theorem claim_C5_amended (data : RawInput) (model : Model) (names : List String) :
    normalize [] = Except.error "No input data provided in the request body."
    ∧ predict (some model) (some names) ⟨none, []⟩
      = Response.err
          "An error occurred during prediction: No input data provided in the request body."
          400
    ∧ ((∃ e, normalize data = Except.error e) ↔
        data = [] ∨ ∃ k ∈ numericNames, ∃ s, rawGet data k = some s ∧ parseFloat s = none) :=
  ⟨rfl, rfl, normalize_error_iff data⟩

/-- C9: unknown-key noninterference — two non-empty payloads that agree on
the values (or absence) of the nine known keys normalize identically and
drive the pipeline to identical responses under every model and schema;
keys outside the nine are never read. -/
theorem claim_C9 (d1 d2 : RawInput) (h1 : d1 ≠ []) (h2 : d2 ≠ [])
    (hagree : ∀ k ∈ payloadKeys, rawGet d1 k = rawGet d2 k) :
    normalize d1 = normalize d2
    ∧ ∀ (model : Model) (names : List String),
        predictData model names d1 = predictData model names d2 := by
  have he1 : d1.isEmpty = false := by simpa [List.isEmpty_iff] using h1
  have he2 : d2.isEmpty = false := by simpa [List.isEmpty_iff] using h2
  have hgf : ∀ k, k ∈ payloadKeys → getFloat d1 k = getFloat d2 k := by
    intro k hk
    unfold getFloat
    rw [hagree k hk]
  have hs : ∀ k dflt, k ∈ payloadKeys → getStr d1 k dflt = getStr d2 k dflt := by
    intro k dflt hk
    unfold getStr
    rw [hagree k hk]
  have hn : normalize d1 = normalize d2 := by
    unfold normalize
    rw [he1, he2, hgf "carat" (by decide), hgf "depth" (by decide),
      hgf "table" (by decide), hgf "x" (by decide), hgf "y" (by decide),
      hgf "z" (by decide), hs "cut" "Ideal" (by decide), hs "color" "D" (by decide),
      hs "clarity" "IF" (by decide)]
  refine ⟨hn, ?_⟩
  intro model names
  unfold predictData
  rw [hn]

/-- Witness for C9: two concrete payloads differing only in junk keys give
the same normalization and the same responses. -/
theorem claim_C9_witness :
    (d1ex ≠ [] ∧ d2ex ≠ [] ∧ ∀ k ∈ payloadKeys, rawGet d1ex k = rawGet d2ex k)
    ∧ normalize d1ex = normalize d2ex
    ∧ ∀ (model : Model) (names : List String),
        predictData model names d1ex = predictData model names d2ex :=
  ⟨⟨by decide, by decide, by decide⟩,
    claim_C9 d1ex d2ex (by decide) (by decide) (by decide)⟩

/-- C3: for every normalized input and schema, and for each categorical
field, the composed name `field_category` contributes a 1 to the built
vector if and only if it occurs among the schema names: every position
bearing a composed name holds 1, a composed name occurring in the schema
yields a witness position holding 1, and when the composed name is unknown
to the schema the whole one-hot block of that field is left all-zero; the
builder is total (never raises) and preserves the schema length. -/
theorem claim_C3 (n : NormalizedInput) (names : List String) :
    (build_vector n names).length = names.length
    ∧ (∀ i : Fin names.length,
        (names.get i = "cut_" ++ n.cut ∨ names.get i = "color_" ++ n.color
          ∨ names.get i = "clarity_" ++ n.clarity) →
        (build_vector n names).getD i.val 0 = 1)
    ∧ (∀ comp ∈ ["cut_" ++ n.cut, "color_" ++ n.color, "clarity_" ++ n.clarity],
        comp ∈ names →
        ∃ i : Fin names.length, names.get i = comp
          ∧ (build_vector n names).getD i.val 0 = 1)
    ∧ ("cut_" ++ n.cut ∉ names →
        ∀ i : Fin names.length, (∃ c ∈ CUT_OPTIONS, names.get i = "cut_" ++ c) →
          (build_vector n names).getD i.val 0 = 0)
    ∧ ("color_" ++ n.color ∉ names →
        ∀ i : Fin names.length, (∃ c ∈ COLOR_KEYS, names.get i = "color_" ++ c) →
          (build_vector n names).getD i.val 0 = 0)
    ∧ ("clarity_" ++ n.clarity ∉ names →
        ∀ i : Fin names.length, (∃ c ∈ CLARITY_KEYS, names.get i = "clarity_" ++ c) →
          (build_vector n names).getD i.val 0 = 0) := by
  have hpos : ∀ i : Fin names.length,
      (names.get i = "cut_" ++ n.cut ∨ names.get i = "color_" ++ n.color
        ∨ names.get i = "clarity_" ++ n.clarity) →
      (build_vector n names).getD i.val 0 = 1 := by
    intro i h
    rw [build_vector_getD]
    rcases h with h | h | h <;> rw [h]
    · exact buildDict_cutComp n
    · exact buildDict_colorComp n
    · exact buildDict_clarityComp n
  refine ⟨length_build_vector n names, hpos, ?_, ?_, ?_, ?_⟩
  · intro comp hcomp hmem
    obtain ⟨i, hi⟩ := List.mem_iff_get.mp hmem
    refine ⟨i, hi, hpos i ?_⟩
    simp only [List.mem_cons, List.mem_singleton, List.not_mem_nil, or_false] at hcomp
    rcases hcomp with rfl | rfl | rfl
    · exact Or.inl hi
    · exact Or.inr (Or.inl hi)
    · exact Or.inr (Or.inr hi)
  · rintro hnm i ⟨c, hc, hname⟩
    rw [build_vector_getD, hname]
    have hmem2 : "cut_" ++ c ∈ names := by
      rw [← hname]; exact names.get_mem _ _
    refine buildDict_other n _ (fun hm => cutComp_ne_numeric c _ hm rfl) ?_
      (cut_ne_color c n.color) (cut_ne_clarity c n.clarity)
    intro he
    rw [he] at hmem2
    exact hnm hmem2
  · rintro hnm i ⟨c, hc, hname⟩
    rw [build_vector_getD, hname]
    have hmem2 : "color_" ++ c ∈ names := by
      rw [← hname]; exact names.get_mem _ _
    refine buildDict_other n _ (fun hm => colorComp_ne_numeric c _ hm rfl)
      (fun he => cut_ne_color n.cut c he.symm) ?_ (color_ne_clarity c n.clarity)
    intro he
    rw [he] at hmem2
    exact hnm hmem2
  · rintro hnm i ⟨c, hc, hname⟩
    rw [build_vector_getD, hname]
    have hmem2 : "clarity_" ++ c ∈ names := by
      rw [← hname]; exact names.get_mem _ _
    refine buildDict_other n _ (fun hm => clarityComp_ne_numeric c _ hm rfl)
      (fun he => cut_ne_clarity n.cut c he.symm)
      (fun he => color_ne_clarity n.color c he.symm) ?_
    intro he
    rw [he] at hmem2
    exact hnm hmem2

/-- Witness for C3: with `cut = NotARealCut` against a schema holding two
cut columns, the whole cut block stays zero and nothing raises. -/
theorem claim_C3_witness :
    ("cut_" ++ nUnknown.cut ∉ exSchemaU)
    ∧ ∀ i : Fin exSchemaU.length,
        (∃ c ∈ CUT_OPTIONS, exSchemaU.get i = "cut_" ++ c) →
        (build_vector nUnknown exSchemaU).getD i.val 0 = 0 :=
  ⟨by decide, (claim_C3 nUnknown exSchemaU).2.2.2.1 (by decide)⟩

/-- Counterexample to C4 as stated: with the legal triple (Ideal, D, IF)
and carat = 1 against a schema containing the six numeric names and the
three matching one-hot names, the built vector has four positions equal
to 1 — the carat position also holds 1 — not exactly three. -/
theorem claim_C4_counterexample :
    ("Ideal" ∈ CUT_OPTIONS ∧ "D" ∈ COLOR_KEYS ∧ "IF" ∈ CLARITY_KEYS
      ∧ (∀ k ∈ numericNames, k ∈ exSchema) ∧ "cut_Ideal" ∈ exSchema
      ∧ "color_D" ∈ exSchema ∧ "clarity_IF" ∈ exSchema ∧ exSchema.Nodup)
    ∧ (build_vector ⟨1, 0, 0, 0, 0, 0, "Ideal", "D", "IF"⟩ exSchema).countP
        (fun q => decide (q = 1)) = 4 :=
  ⟨by decide, by decide⟩

/-- C4 as amended: for a categorical triple drawn from the legal option
sets against a duplicate-free schema containing the six numeric names and
the corresponding composed one-hot names, the built vector has the schema's
length, its numeric positions carry the normalized numeric values, exactly
3 of its non-numeric positions equal 1 (one per categorical block), and
every other non-numeric position equals 0.  (As stated the claim counted
ones over the whole vector, which fails when a numeric input equals 1.) -/
theorem claim_C4_amended (n : NormalizedInput) (names : List String)
    (hcut : n.cut ∈ CUT_OPTIONS) (hcolor : n.color ∈ COLOR_KEYS)
    (hclarity : n.clarity ∈ CLARITY_KEYS)
    (hnum : ∀ k ∈ numericNames, k ∈ names)
    (h1 : "cut_" ++ n.cut ∈ names) (h2 : "color_" ++ n.color ∈ names)
    (h3 : "clarity_" ++ n.clarity ∈ names) (hnd : names.Nodup) :
    (build_vector n names).length = names.length
    ∧ (∀ i : Fin names.length, names.get i = "carat" →
        (build_vector n names).getD i.val 0 = n.carat)
    ∧ (∀ i : Fin names.length, names.get i = "depth" →
        (build_vector n names).getD i.val 0 = n.depth)
    ∧ (∀ i : Fin names.length, names.get i = "table" →
        (build_vector n names).getD i.val 0 = n.table)
    ∧ (∀ i : Fin names.length, names.get i = "x" →
        (build_vector n names).getD i.val 0 = n.x)
    ∧ (∀ i : Fin names.length, names.get i = "y" →
        (build_vector n names).getD i.val 0 = n.y)
    ∧ (∀ i : Fin names.length, names.get i = "z" →
        (build_vector n names).getD i.val 0 = n.z)
    ∧ (names.zip (build_vector n names)).countP
        (fun p => decide (p.1 ∉ numericNames) && decide (p.2 = 1)) = 3
    ∧ (∀ i : Fin names.length, names.get i ∉ numericNames →
        names.get i ≠ "cut_" ++ n.cut → names.get i ≠ "color_" ++ n.color →
        names.get i ≠ "clarity_" ++ n.clarity →
        (build_vector n names).getD i.val 0 = 0) := by
  refine ⟨length_build_vector n names, ?_, ?_, ?_, ?_, ?_, ?_, ?_, ?_⟩
  · intro i h; rw [build_vector_getD, h, buildDict_carat]
  · intro i h; rw [build_vector_getD, h, buildDict_depth]
  · intro i h; rw [build_vector_getD, h, buildDict_table]
  · intro i h; rw [build_vector_getD, h, buildDict_x]
  · intro i h; rw [build_vector_getD, h, buildDict_y]
  · intro i h; rw [build_vector_getD, h, buildDict_z]
  · have hz := List.zip_map' id (buildDict n) names
    rw [List.map_id] at hz
    show (names.zip (names.map (buildDict n))).countP
      (fun p => decide (p.1 ∉ numericNames) && decide (p.2 = 1)) = 3
    rw [hz, List.countP_map]
    have hco : ∀ a ∈ names,
        ((fun p : String × ℚ => decide (p.1 ∉ numericNames) && decide (p.2 = 1)) ∘
          fun a => (id a, buildDict n a)) a = true ↔
        (fun a => decide (a = "cut_" ++ n.cut) || decide (a = "color_" ++ n.color)
          || decide (a = "clarity_" ++ n.clarity)) a = true := by
      intro a _
      by_cases hc1 : a = "cut_" ++ n.cut
      · subst hc1
        have hnn : "cut_" ++ n.cut ∉ numericNames :=
          fun hm => cutComp_ne_numeric n.cut _ hm rfl
        simp [buildDict_cutComp, hnn]
      · by_cases hc2 : a = "color_" ++ n.color
        · subst hc2
          have hnn : "color_" ++ n.color ∉ numericNames :=
            fun hm => colorComp_ne_numeric n.color _ hm rfl
          simp [buildDict_colorComp, hnn]
        · by_cases hc3 : a = "clarity_" ++ n.clarity
          · subst hc3
            have hnn : "clarity_" ++ n.clarity ∉ numericNames :=
              fun hm => clarityComp_ne_numeric n.clarity _ hm rfl
            simp [buildDict_clarityComp, hnn]
          · by_cases hmem : a ∈ numericNames
            · simp [hmem, hc1, hc2, hc3]
            · rw [Function.comp_apply, buildDict_other n a hmem hc1 hc2 hc3]
              simp [hmem, hc1, hc2, hc3]
    rw [List.countP_congr hco,
      countP_three_eq_counts names _ _ _ (cut_ne_color n.cut n.color)
        (cut_ne_clarity n.cut n.clarity) (color_ne_clarity n.color n.clarity),
      List.count_eq_one_of_mem hnd h1, List.count_eq_one_of_mem hnd h2,
      List.count_eq_one_of_mem hnd h3]
  · intro i hn1 hn2 hn3 hn4
    rw [build_vector_getD]
    exact buildDict_other n _ hn1 hn2 hn3 hn4

/-- Witness for C4 (amended): the legal triple (Ideal, D, IF) with
carat = 2 against the nine-column schema puts exactly 3 ones outside the
numeric positions. -/
theorem claim_C4_witness :
    ("Ideal" ∈ CUT_OPTIONS ∧ "D" ∈ COLOR_KEYS ∧ "IF" ∈ CLARITY_KEYS
      ∧ exSchema.Nodup)
    ∧ (exSchema.zip (build_vector nIdeal exSchema)).countP
        (fun p => decide (p.1 ∉ numericNames) && decide (p.2 = 1)) = 3 :=
  ⟨⟨by decide, by decide, by decide, by decide⟩,
    (claim_C4_amended nIdeal exSchema (by decide) (by decide) (by decide) (by decide)
      (by decide) (by decide) (by decide) (by decide)).2.2.2.2.2.2.2.1⟩

end Gemstone
